import Mathlib

/-!
Verification of the smart-meter logging web application.

This file gives a shallow embedding of the parts of the application that the
specification talks about: the dashboard job table (status text, request-id
staleness protection, cursor pagination), the labs page (cabinet status
colors, the per-lab inventory fetch), the login flow (outcome
classification), the admin user list loader, the logout handler, and the
log-collection submission form.  Each definition is translated directly from
the corresponding TypeScript source.  JavaScript truthiness on strings
(where the empty string is falsy) is modelled explicitly with the helpers
`jsOrStr` and `jsOptOr`.
-/

set_option autoImplicit false

namespace SmartMeter

/-- JavaScript `a || b` on an optional string: `none` and the empty string
are falsy and fall through to the default. -/
def jsOrStr (o : Option String) (dflt : String) : String :=
  match o with
  | none => dflt
  | some s => if s = "" then dflt else s

/-- JavaScript `a || b` where the default is again optional (used for
`x || null`). -/
def jsOptOr (o : Option String) (dflt : Option String) : Option String :=
  match o with
  | none => dflt
  | some s => if s = "" then dflt else some s

/-- JavaScript string truthiness: `none` and `""` are falsy. -/
def jsTruthy (o : Option String) : Bool :=
  match o with
  | none => false
  | some s => s ≠ ""

/-! ### Dashboard job status text

From `getStatusText` in the dashboard component: codes 105/106/107 map to
"In Progress", 108 to "Ready for download", and any other code shows the
server-provided `log_collection_status` text, with `"Unknown"` substituted
when that text is empty (the JS `statusText || "Unknown"`). -/

def getStatusText (statusCode : Nat) (statusText : String) : String :=
  if statusCode = 105 ∨ statusCode = 106 ∨ statusCode = 107 then
    "In Progress"
  else if statusCode = 108 then
    "Ready for download"
  else
    if statusText = "" then "Unknown" else statusText

/-! ### Cabinet status classification (labs page)

`fetchLabDetails` transforms the inventory response: `is_active` (a boolean
on the wire) is stored as the string `"true"` or `"false"`, and
`has_commissioned_device` is true when some device of the cabinet's
`meter_set` has `device_state` equal to `"commissioned"` case-insensitively.
`getStatusColor` then picks the background classes per cabinet. -/

structure CabinetData where
  cabinet_id : String
  ch_type : Option String
  ch_variant : Option String
  lab_id : String
  is_active : String
  device_state : Option String
  has_commissioned_device : Bool
  deriving Repr, DecidableEq

/-- The `is_active` transformation in `fetchLabDetails`:
`lls.is_active ? "true" : "false"`. -/
def isActiveString (b : Bool) : String :=
  if b then "true" else "false"

/-- The fallback colors used when no cabinet info is found for a set,
keyed on the set's `signalStrength`. -/
def signalStrengthColor (signalStrength : String) : String :=
  if signalStrength = "full" then
    "bg-green-100 border-green-300 hover:bg-green-200"
  else if signalStrength = "medium" then
    "bg-yellow-100 border-yellow-300 hover:bg-yellow-200"
  else
    "bg-red-100 border-red-300 hover:bg-red-200"

/-- `getStatusColor` from the labs page: status classes for a set, given
the cabinet record found for it (or none). -/
def getStatusColor (cabinetInfo : Option CabinetData) (signalStrength : String) : String :=
  match cabinetInfo with
  | none => signalStrengthColor signalStrength
  | some c =>
    if c.is_active = "true" ∧ c.has_commissioned_device then
      "bg-green-100 border-green-300 hover:bg-green-200"
    else if c.is_active = "true" ∧ ¬ c.has_commissioned_device then
      "bg-yellow-100 border-yellow-300 hover:bg-yellow-200"
    else
      "bg-gray-200 border-gray-400 hover:bg-gray-300"

/-! ### Per-lab inventory fetch (labs page)

`fetchLabDetails` clears `cabinetData`, `chManufactures` and `chVariants`
when it starts and again in its `catch` block; on success it sets all four
derived pieces of state from the LLS inventory response.  Note that the
`catch` block does not touch `allSets`. -/

structure MeterDevice where
  device_type : Option String
  manufacturer : Option String
  guid : Option String
  device_state : Option String
  device_model : Option String
  deriving Repr, DecidableEq

structure LLSCabinetInventory where
  cabinet_id : String
  ch_type : Option String
  ch_variant : Option String
  lab_id : String
  is_active : Bool
  host_name : String
  host_ip : String
  meter_set : Option (List MeterDevice)
  deriving Repr, DecidableEq

structure Facet where
  id : String
  name : String
  deriving Repr, DecidableEq

structure SetVM where
  id : String
  name : String
  number : Nat
  manufacture : String
  variant : String
  signalStrength : String
  cabinet_id : String
  deriving Repr, DecidableEq

structure LabsState where
  cabinetData : List CabinetData
  chManufactures : List Facet
  chVariants : List Facet
  allSets : List SetVM
  deriving Repr, DecidableEq

/-- Insertion-order deduplication, as produced by
`Array.from(new Set(xs))` in JavaScript (first occurrence wins). -/
def jsSetDedup (l : List String) : List String :=
  l.foldl (fun acc a => if a ∈ acc then acc else acc ++ [a]) []

/-- Rendering of a nullable string inside a JS template literal:
`null` prints as `"null"`. -/
def jsTemplate (o : Option String) : String :=
  match o with
  | none => "null"
  | some s => s

/-- The per-cabinet transformation inside `fetchLabDetails`. -/
def transformCabinet (lls : LLSCabinetInventory) : CabinetData :=
  { cabinet_id := lls.cabinet_id
    ch_type := lls.ch_type
    ch_variant := jsOptOr lls.ch_variant none
    lab_id := lls.lab_id
    is_active := isActiveString lls.is_active
    device_state :=
      jsOptOr (match lls.meter_set with
               | some (d :: _) => d.device_state
               | _ => none) none
    has_commissioned_device :=
      match lls.meter_set with
      | some ds => ds.any (fun d =>
          match d.device_state with
          | some s => s.toLower = "commissioned"
          | none => false)
      | none => false }

/-- The facet lists derived from the transformed cabinets: distinct
non-null tags, upper-cased for display. -/
def extractFacets (tags : List (Option String)) : List Facet :=
  (jsSetDedup (tags.filterMap id)).map (fun t => { id := t, name := t.toUpper })

/-- The set view-models generated from the transformed cabinets. -/
def generateSets (cabs : List CabinetData) : List SetVM :=
  cabs.mapIdx (fun index cabinet =>
    { id := cabinet.cabinet_id ++ "-" ++ jsTemplate cabinet.ch_type
      name := cabinet.cabinet_id
      number := index + 1
      manufacture := jsOrStr cabinet.ch_type ""
      variant := jsOrStr cabinet.ch_variant ""
      signalStrength :=
        if cabinet.has_commissioned_device then "full"
        else if cabinet.is_active = "true" then "medium"
        else "none"
      cabinet_id := cabinet.cabinet_id })

/-- The success path of `fetchLabDetails`: transform the LLS response and
set all four pieces of derived state. -/
def fetchLabDetailsSuccess (s : LabsState) (llsData : List LLSCabinetInventory) : LabsState :=
  let cabs := llsData.map transformCabinet
  { s with
    cabinetData := cabs
    chManufactures := extractFacets (cabs.map (·.ch_type))
    chVariants := extractFacets (cabs.map (·.ch_variant))
    allSets := generateSets cabs }

/-- The error path of `fetchLabDetails`: the `catch` block clears
`cabinetData`, `chManufactures` and `chVariants` (the same three lists the
function clears on entry); `allSets` is not written. -/
def fetchLabDetailsError (s : LabsState) : LabsState :=
  { s with
    cabinetData := []
    chManufactures := []
    chVariants := [] }

/-- Outcome of the LLS inventory request as seen by `fetchLabDetails`:
either a parsed JSON body, or any thrown / classified error (bad status,
non-JSON body, network failure). -/
inductive LLSFetchOutcome where
  | ok (llsData : List LLSCabinetInventory)
  | errored
  deriving Repr, DecidableEq

/-- `fetchLabDetails` as a state transformer over the derived lists. -/
def fetchLabDetails (s : LabsState) (outcome : LLSFetchOutcome) : LabsState :=
  let cleared : LabsState :=
    { s with cabinetData := [], chManufactures := [], chVariants := [] }
  match outcome with
  | .ok llsData => fetchLabDetailsSuccess cleared llsData
  | .errored => fetchLabDetailsError cleared

/-! ### Admin user list loader (users page)

`loadUsers` fetches the user list and transforms the parsed JSON body with
`Array.isArray(data) ? data.map(...) : []`: only a bare array is mapped to
the internal `User` shape; any object body (including the documented
wrapped shapes) produces an empty list.  `ADMIN_USERS_API.md` in the
repository documents a loader that also unwraps `data.users` and
`data.data`. -/

structure ApiUser where
  first_name : Option String
  last_name : Option String
  role : Option String
  user_id : Option String
  deriving Repr, DecidableEq

structure User where
  id : String
  name : String
  email : String
  username : String
  first_name : Option String
  last_name : Option String
  role : Option String
  user_id : Option String
  deriving Repr, DecidableEq

/-- The element transformation inside `loadUsers`. -/
def transformUser (index : Nat) (apiUser : ApiUser) : User :=
  { id := jsOrStr apiUser.user_id (toString (index + 1))
    name :=
      let full := (jsOrStr apiUser.first_name "" ++ " " ++ jsOrStr apiUser.last_name "").trim
      if full = "" then jsOrStr apiUser.user_id "Unknown" else full
    email := jsOrStr apiUser.user_id ""
    username :=
      if jsTruthy apiUser.user_id then
        ((jsOrStr apiUser.user_id "").splitOn "@").headD ""
      else
        "user" ++ toString (index + 1)
    first_name := apiUser.first_name
    last_name := apiUser.last_name
    role := apiUser.role
    user_id := apiUser.user_id }

/-- The three JSON body shapes the spec says the loader must accept. -/
inductive UsersBody where
  | bareArray (l : List ApiUser)
  | usersObj (l : List ApiUser)
  | dataObj (l : List ApiUser)
  deriving Repr, DecidableEq

/-- The body-to-users step of `loadUsers` as written in
`users-page.tsx`: `Array.isArray(data) ? data.map(transform) : []`. -/
def loadUsersTransform : UsersBody → List User
  | .bareArray l => l.mapIdx (fun i u => transformUser i u)
  | .usersObj _ => []
  | .dataObj _ => []

/-- The loader documented in `ADMIN_USERS_API.md` (the repository's own
handling of the three response shapes): unwrap the users list from a bare
array, a `users` property, or a `data` property. -/
def documentedUsersList : UsersBody → List ApiUser
  | .bareArray l => l
  | .usersObj l => l
  | .dataObj l => l

/-! ### Login outcome classification (auth page)

`authenticateUser` performs the login POST.  A network-level throw is
turned into a config-error result by the `.catch` on `fetch`; the response
is then classified in order: 401, 422, 404 (config error), 5xx, any other
non-ok status, then a non-JSON content-type (config error), then a missing
token in the body; otherwise the session fields are stored and a success
result is returned.  Thrown errors are caught at the bottom and returned
with `isConfigError: false`. -/

/-- What the login endpoint did, as observed by the client.  A JSON body is
summarized by the fields the client reads (`token`, `role`,
`message`/`detail`). -/
inductive LoginResponse where
  | networkThrow
  | http (status : Nat) (contentTypeJson : Bool) (token : Option String)
      (role : Option String) (message : Option String)
  deriving Repr, DecidableEq

/-- The session fields `authenticateUser` writes to storage on success. -/
structure StoredSession where
  authToken : String
  userName : String
  userEmail : String
  userRole : String
  deriving Repr, DecidableEq

/-- Result of `authenticateUser`, plus the storage writes it performed
(`stored = none` means no session field was written). -/
structure AuthResult where
  success : Bool
  isConfigError : Bool
  errorMsg : String
  stored : Option StoredSession
  deriving Repr, DecidableEq

/-- The message `errorData.message || errorData.detail || dflt` drawn from
a JSON error body. -/
def bodyMessage (message : Option String) (dflt : String) : String :=
  jsOrStr message dflt

/-- Shorthand for a failure result with no storage writes. -/
def authFailure (msg : String) (cfg : Bool) : AuthResult :=
  { success := false, isConfigError := cfg, errorMsg := msg, stored := none }

/-- `authenticateUser` from `auth-page.tsx` as a function of the observed
response. -/
def authenticateUser (email : String) (resp : LoginResponse) : AuthResult :=
  match resp with
  | .networkThrow => authFailure "API_CONFIG_ERROR" true
  | .http status isJson token role message =>
    if status = 401 then
      if isJson then authFailure (bodyMessage message "Invalid credentials") false
      else authFailure "The supplied parameters are incorrect" false
    else if status = 422 then
      if isJson then authFailure (bodyMessage message "Bad request") false
      else authFailure "Bad request - missing required fields" false
    else if status = 404 then
      authFailure "API_CONFIG_ERROR" true
    else if 500 ≤ status then
      if isJson then authFailure (bodyMessage message "Server error occurred") false
      else authFailure "Server error occurred. Please try again later." false
    else if ¬ (200 ≤ status ∧ status ≤ 299) then
      if isJson then authFailure (bodyMessage message "Authentication failed") false
      else authFailure ("Authentication failed (Status: " ++ toString status ++ ")") false
    else if ¬ isJson then
      authFailure "API_CONFIG_ERROR" true
    else
      match token with
      | none => authFailure "No authentication token received from server" false
      | some t =>
        let userName := (email.splitOn "@").headD ""
        let userRole := jsOrStr role "user"
        { success := true
          isConfigError := false
          errorMsg := ""
          stored := some
            { authToken := t, userName := userName, userEmail := email, userRole := userRole } }

/-- The view shown after `handleLogin` processes the result: only a
successful result calls `onLoginSuccess`, which navigates to the
dashboard; every failure leaves the auth page mounted. -/
def pageAfterLogin (result : AuthResult) : String :=
  if result.success then "dashboard" else "auth"

/-! ### Dashboard job table: fetch, staleness protection, pagination

State of the dashboard component (`tableData`, `currentNextKey`,
`previousKeys`, `currentPage`) together with the refs `isFetchingRef` and
`currentRequestIdRef`.  `fetchLogCollections` increments and captures the
request id when a request starts; when the response arrives it is applied
through `processApiResponse` only if the captured id still equals the
current id, otherwise it is discarded; the `finally` clause resets the
in-flight flag either way, and the `catch` clause empties the table. -/

structure NextPageKey where
  id : String
  deriving Repr, DecidableEq

structure LogCollection where
  transaction_id : String
  lab_id : String
  cabinet_id : String
  ch_type : Option String
  start_time : String
  stop_time : String
  submit_time : String
  task_desc : String
  log_collection_status : String
  log_collection_status_code : Nat
  log_types : List String
  deriving Repr, DecidableEq

structure LogCollectionsResponse where
  next_page_key : Option NextPageKey
  log_collections : List LogCollection
  deriving Repr, DecidableEq

structure TableRow where
  sNo : Nat
  taskId : String
  taskDescription : String
  setDetails : String
  timeSubmitted : String
  startTime : String
  endTime : String
  status : String
  statusCode : Nat
  deriving Repr, DecidableEq

def DEFAULT_LIMIT : Nat := 10

structure DashboardState where
  tableData : List TableRow
  currentNextKey : Option NextPageKey
  previousKeys : List (Option NextPageKey)
  currentPage : Nat
  isFetching : Bool
  currentRequestId : Nat
  deriving Repr, DecidableEq

/-- The row mapping inside `processApiResponse`. -/
def mapLogToRow (actualPageNumber index : Nat) (log : LogCollection) : TableRow :=
  { sNo := (actualPageNumber - 1) * DEFAULT_LIMIT + index + 1
    taskId := log.transaction_id
    taskDescription := log.task_desc
    setDetails := log.lab_id ++ " / " ++ log.cabinet_id ++ " / " ++ jsOrStr log.ch_type ""
    timeSubmitted := log.submit_time
    startTime := log.start_time
    endTime := log.stop_time
    status := getStatusText log.log_collection_status_code log.log_collection_status
    statusCode := log.log_collection_status_code }

/-- `processApiResponse`: store the new `next_page_key` and replace the
table rows; `pageNumber = none` models the omitted optional argument, in
which case the component's `currentPage` is used. -/
def processApiResponse (s : DashboardState) (data : LogCollectionsResponse)
    (pageNumber : Option Nat) : DashboardState :=
  let actualPageNumber := pageNumber.getD s.currentPage
  { s with
    currentNextKey := data.next_page_key
    tableData := data.log_collections.mapIdx
      (fun index log => mapLogToRow actualPageNumber index log) }

/-- The request-id capture at the start of `fetchLogCollections`:
increment `currentRequestIdRef` and capture the new value for this
request. -/
def issueRequest (s : DashboardState) : DashboardState × Nat :=
  ({ s with currentRequestId := s.currentRequestId + 1 }, s.currentRequestId + 1)

/-- How a `fetchLogCollections` request finished. -/
inductive FetchOutcome where
  | success (data : LogCollectionsResponse)
  | errored
  deriving Repr, DecidableEq

/-- The tail of `fetchLogCollections` once the request with captured id
`thisRequestId` finishes.  On success the response is applied only when the
captured id still equals the latest issued id (otherwise the early `return`
discards it); the `catch` branch empties the table; the `finally` clause
resets the in-flight flag in every case. -/
def fetchComplete (s : DashboardState) (thisRequestId : Nat) (outcome : FetchOutcome)
    (pageNumber : Nat) : DashboardState :=
  match outcome with
  | .success data =>
    let s' := if thisRequestId = s.currentRequestId
              then processApiResponse s data (some pageNumber)
              else s
    { s' with isFetching := false }
  | .errored => { s with tableData := [], isFetching := false }

/-- A pending call to `fetchLogCollections` issued by a handler. -/
structure FetchCall where
  key : Option NextPageKey
  showToast : Bool
  pageNumber : Nat
  deriving Repr, DecidableEq

/-- `handleNextPage`: a no-op while a fetch is in flight, when no next-page
key is available, or when the key has no `id`; otherwise push the key,
advance the page, set the in-flight flag and start the fetch. -/
def handleNextPage (s : DashboardState) : DashboardState × Option FetchCall :=
  if s.isFetching then (s, none)
  else
    match s.currentNextKey with
    | none => (s, none)
    | some k =>
      if k.id = "" then (s, none)
      else
        let nextPage := s.currentPage + 1
        ({ s with
            isFetching := true
            previousKeys := s.previousKeys ++ [some k]
            currentPage := nextPage },
         some { key := some k, showToast := false, pageNumber := nextPage })

/-- `handlePreviousPage`: a no-op while a fetch is in flight, on page 1, or
when the key needed for the previous page is missing or malformed;
otherwise pop the last key, step the page back and start the fetch.  (The
source tests `requiredKeyIndex < 0 || requiredKeyIndex >= length` only
under `prevPage > 1`, where the index `prevPage - 2` is nonnegative.) -/
def handlePreviousPage (s : DashboardState) : DashboardState × Option FetchCall :=
  if s.isFetching then (s, none)
  else if s.currentPage = 1 then (s, none)
  else
    let prevPage := s.currentPage - 1
    if 1 < prevPage ∧ s.previousKeys.length ≤ prevPage - 2 then (s, none)
    else if prevPage = 1 then
      ({ s with
          isFetching := true
          previousKeys := s.previousKeys.dropLast
          currentPage := 1 },
       some { key := none, showToast := false, pageNumber := 1 })
    else
      match s.previousKeys[prevPage - 2]? with
      | some (some k) =>
        if k.id = "" then (s, none)
        else
          ({ s with
              isFetching := true
              previousKeys := s.previousKeys.dropLast
              currentPage := prevPage },
           some { key := some k, showToast := false, pageNumber := prevPage })
      | _ => (s, none)

/-- `handleRefresh`: a no-op while a fetch is in flight; otherwise reset to
page 1 with an empty key history and start the fetch. -/
def handleRefresh (s : DashboardState) : DashboardState × Option FetchCall :=
  if s.isFetching then (s, none)
  else
    ({ s with isFetching := true, previousKeys := [], currentPage := 1 },
     some { key := none, showToast := true, pageNumber := 1 })

/-- One accepted pagination transition: the handler fires, the request is
issued (capturing its id), and the request then completes with `outcome`
(the sequential case: no other request intervenes). -/
def navStep (s : DashboardState)
    (handler : DashboardState → DashboardState × Option FetchCall)
    (outcome : FetchOutcome) : Option DashboardState :=
  match handler s with
  | (s', some call) =>
    let issued := issueRequest s'
    some (fetchComplete issued.1 issued.2 outcome call.pageNumber)
  | (_, none) => none

/-- A pagination step requested by the user, together with how its fetch
finished. -/
inductive NavStep where
  | next (outcome : FetchOutcome)
  | prev (outcome : FetchOutcome)
  deriving Repr, DecidableEq

def navApply (s : DashboardState) : NavStep → Option DashboardState
  | .next outcome => navStep s handleNextPage outcome
  | .prev outcome => navStep s handlePreviousPage outcome

/-- Run a sequence of accepted `nextPage`/`previousPage` transitions;
`none` when some step is rejected. -/
def navRun (s : DashboardState) (steps : List NavStep) : Option DashboardState :=
  steps.foldlM navApply s

/-- The dashboard state after mount and initial fetch: page 1, empty key
history, whatever next-page key the first response carried. -/
def initialDashboardState (rows : List TableRow) (k : Option NextPageKey)
    (rid : Nat) : DashboardState :=
  { tableData := rows
    currentNextKey := k
    previousKeys := []
    currentPage := 1
    isFetching := false
    currentRequestId := rid }

/-- The pagination consistency property checked by
`validatePaginationState` in the source: the key history holds exactly one
key per page beyond the first. -/
def pageInvariant (s : DashboardState) : Prop :=
  s.previousKeys.length = s.currentPage - 1 ∧ 1 ≤ s.currentPage

/-! ### Logout (App)

`handleLogout` calls the logout endpoint when a token exists and branches
on the status only to pick a toast; the session clearing below the
`try`/`catch` runs unconditionally.  It removes `authToken`, `userName`,
`userEmail`, `userRole`, `userRoles` and `currentPage` from both storages,
resets the user fields, `selectedLab`, `selectedLabId`,
`selectedCabinetId` and `selectedManufacture`, and mounts the auth page.
`selectedVariant` and `selectedDeviceInfo` are not written. -/

structure StorageState where
  authToken : Option String
  userName : Option String
  userEmail : Option String
  userRole : Option String
  userRoles : Option String
  currentPage : Option String
  deriving Repr, DecidableEq

structure AppDeviceInfo where
  device_type : String
  manufacturer : String
  guid : String
  device_state : String
  device_model : String
  host_name : String
  host_ip : String
  deriving Repr, DecidableEq

inductive AppPage where
  | auth
  | dashboard
  | labs
  | setDetails
  | admin
  deriving Repr, DecidableEq

structure AppState where
  currentPage : AppPage
  userName : String
  userEmail : String
  userRole : String
  selectedLab : Nat
  selectedLabId : String
  selectedCabinetId : String
  selectedManufacture : String
  selectedVariant : String
  selectedDeviceInfo : List AppDeviceInfo
  localStore : StorageState
  sessionStore : StorageState
  deriving Repr, DecidableEq

/-- How the logout HTTP call went; it only selects the toast shown. -/
inductive LogoutOutcome where
  | noToken
  | http (status : Nat) (contentTypeJson : Bool)
  | networkThrow
  deriving Repr, DecidableEq

/-- The storage after the `removeItem` calls in `handleLogout`. -/
def clearSessionStorage (st : StorageState) : StorageState :=
  { st with
    authToken := none
    userName := none
    userEmail := none
    userRole := none
    userRoles := none
    currentPage := none }

/-- `handleLogout` from `App.tsx`: regardless of `outcome`, clear the
session fields from both storages, reset the user and most selection
state, and mount the auth page. -/
def handleLogout (outcome : LogoutOutcome) (s : AppState) : AppState :=
  -- `outcome` decides which toast is shown; the clearing is unconditional.
  let _ := outcome
  { s with
      currentPage := AppPage.auth
      userName := ""
      userEmail := ""
      userRole := ""
      selectedLab := 0
      selectedLabId := ""
      selectedCabinetId := ""
      selectedManufacture := ""
      localStore := clearSessionStorage s.localStore
      sessionStore := clearSessionStorage s.sessionStore }

/-! ### Log-collection submission form (set-details page)

`handleRetrieveLogs` validates the form and only afterwards builds the
payload and POSTs it to the start-log-collection endpoint.  Dates and
times are strings from the pickers (empty string when not chosen) and are
compared through JavaScript `Date`, modelled with an abstract order
embedding `parse` and the submit-time clock value `now`.  The HAN log
format select offers exactly `".pcap"`, `".dcf"` and `".cubx"` besides the
empty placeholder, so the chosen format is an `Option HanLogFormat`. -/

inductive HanLogFormat where
  | pcap
  | dcf
  | cubx
  deriving Repr, DecidableEq

/-- The `value` attribute of the selected HAN format option. -/
def hanFormatValue : HanLogFormat → String
  | .pcap => ".pcap"
  | .dcf => ".dcf"
  | .cubx => ".cubx"

structure LogForm where
  taskDescription : String
  startDate : String
  startTime : String
  endDate : String
  endTime : String
  logTypesCH : Bool
  logTypesHAN : Bool
  chLogFormat : Option String
  hanLogFormat : Option HanLogFormat
  deriving Repr, DecidableEq

/-- `formatDateTime`: render date and time to the API format. -/
def formatDateTime (date time : String) : String :=
  date ++ " " ++ time ++ ":00+0000"

/-- `validateDates` from the set-details page, with the JS `Date`
comparisons interpreted through `parse` and the wall clock `now`. -/
def validateDates (parse : String → String → Int) (now : Int) (f : LogForm) : Bool :=
  if f.startDate = "" ∨ f.startTime = "" ∨ f.endDate = "" ∨ f.endTime = "" then
    false
  else
    let startDateTime := parse f.startDate f.startTime
    let endDateTime := parse f.endDate f.endTime
    if now < startDateTime then false
    else if now < endDateTime then false
    else if endDateTime ≤ startDateTime then false
    else true

/-- The request body of the start-log-collection POST. -/
structure StartLogPayload where
  transaction_id : String
  lab_id : String
  cabinet_id : String
  start_time : String
  stop_time : String
  task_description : String
  log_types : List String
  log_format : Option String
  deriving Repr, DecidableEq

/-- `handleRetrieveLogs` up to the POST: `none` means the submission was
rejected (or no token was found) and no network call was made; `some p`
means the POST was issued with body `p`. -/
def handleRetrieveLogs (parse : String → String → Int) (now : Int)
    (token : Option String) (transactionId labId cabinetId : String)
    (f : LogForm) : Option StartLogPayload :=
  if f.taskDescription.trim = "" then none
  else if f.taskDescription.trim.length < 5 then none
  else if ¬ (validateDates parse now f = true) then none
  else if f.logTypesCH = false ∧ f.logTypesHAN = false then none
  else if f.logTypesHAN = true ∧ f.hanLogFormat = none then none
  else
    match token with
    | none => none
    | some _ =>
      some
        { transaction_id := transactionId
          lab_id := labId
          cabinet_id := cabinetId
          start_time := formatDateTime f.startDate f.startTime
          stop_time := formatDateTime f.endDate f.endTime
          task_description := f.taskDescription.trim
          log_types :=
            (if f.logTypesCH then ["ch"] else []) ++
            (if f.logTypesHAN then ["zigbee"] else [])
          log_format :=
            if f.logTypesHAN = true ∧ f.hanLogFormat ≠ none then
              f.hanLogFormat.map hanFormatValue
            else if f.logTypesCH = true ∧ jsTruthy f.chLogFormat then
              f.chLogFormat
            else none }

/-! ### Sample data used in witnesses and counterexamples -/

def sampleCabinet : CabinetData :=
  { cabinet_id := "b11"
    ch_type := some "edmi"
    ch_variant := some "vmo2"
    lab_id := "andromeda"
    is_active := "true"
    device_state := some "Commissioned"
    has_commissioned_device := true }

def sampleApiUser : ApiUser :=
  { first_name := some "John"
    last_name := some "Doe"
    role := some "user"
    user_id := some "john.doe@example.com" }

def sampleSetVM : SetVM :=
  { id := "b11-edmi"
    name := "b11"
    number := 1
    manufacture := "edmi"
    variant := "vmo2"
    signalStrength := "full"
    cabinet_id := "b11" }

def labsStateWithSets : LabsState :=
  { cabinetData := [sampleCabinet]
    chManufactures := [{ id := "edmi", name := "EDMI" }]
    chVariants := [{ id := "vmo2", name := "VMO2" }]
    allSets := [sampleSetVM] }

def busyDashboardState : DashboardState :=
  { tableData := []
    currentNextKey := some { id := "69612974799a31d4c3ace371" }
    previousKeys := []
    currentPage := 1
    isFetching := true
    currentRequestId := 3 }

def emptyResponse : LogCollectionsResponse :=
  { next_page_key := none, log_collections := [] }

def dashS0 : DashboardState := initialDashboardState [] none 0

def dashS1 : DashboardState := initialDashboardState [] none 1

def dashS2 : DashboardState := initialDashboardState [] none 2

def fullStorage : StorageState :=
  { authToken := some "jwt-token"
    userName := some "jane"
    userEmail := some "jane@example.com"
    userRole := some "admin"
    userRoles := some "admin"
    currentPage := some "dashboard" }

def sampleAppDevice : AppDeviceInfo :=
  { device_type := "ESME"
    manufacturer := "EDMI"
    guid := "00-11-22-33-44-55-66-77"
    device_state := "Commissioned"
    device_model := "ES-10B"
    host_name := "host1"
    host_ip := "10.0.0.1" }

def loggedInAppState : AppState :=
  { currentPage := AppPage.dashboard
    userName := "jane"
    userEmail := "jane@example.com"
    userRole := "admin"
    selectedLab := 2
    selectedLabId := "andromeda"
    selectedCabinetId := "b11"
    selectedManufacture := "edmi"
    selectedVariant := "vmo2"
    selectedDeviceInfo := [sampleAppDevice]
    localStore := fullStorage
    sessionStore := fullStorage }

/-! ## Theorems for the claims -/

/-- C5: for every cabinet record, active with a commissioned device is
classified green ("commissioned"), active without one yellow ("not
commissioned"), and an inactive cabinet gray ("inactive") regardless of its
commissioning state. -/
theorem claim_C5_cabinet_status (c : CabinetData) (sig : String) :
    (c.is_active = isActiveString true → c.has_commissioned_device = true →
      getStatusColor (some c) sig = "bg-green-100 border-green-300 hover:bg-green-200") ∧
    (c.is_active = isActiveString true → c.has_commissioned_device = false →
      getStatusColor (some c) sig = "bg-yellow-100 border-yellow-300 hover:bg-yellow-200") ∧
    (c.is_active = isActiveString false →
      getStatusColor (some c) sig = "bg-gray-200 border-gray-400 hover:bg-gray-300") := by
  have hne : ("false" : String) ≠ "true" := by decide
  refine ⟨fun ha hb => ?_, fun ha hb => ?_, fun ha => ?_⟩
  · simp [getStatusColor, isActiveString] at ha ⊢
    simp [ha, hb]
  · simp [getStatusColor, isActiveString] at ha ⊢
    simp [ha, hb]
  · simp [getStatusColor, isActiveString] at ha ⊢
    simp [ha, hne]

/-- C5 witness: the sample commissioned active cabinet is green. -/
theorem claim_C5_cabinet_status_witness :
    getStatusColor (some sampleCabinet) "full" =
      "bg-green-100 border-green-300 hover:bg-green-200" :=
  (claim_C5_cabinet_status sampleCabinet "full").1 rfl rfl

/-- C6 counterexample: for status code 110 with an empty server-provided
status text, `getStatusText` substitutes "Unknown" instead of using the raw
text verbatim. -/
theorem claim_C6_status_counterexample :
    getStatusText 110 "" = "Unknown" ∧ getStatusText 110 "" ≠ "" := by
  constructor
  · rfl
  · decide

/-- C6 (amended): codes 105/106/107 give "In Progress", 108 gives "Ready
for download", and any other code shows the server-provided text verbatim
when it is nonempty, with "Unknown" substituted for an empty text. -/
theorem claim_C6_status_text (code : Nat) (text : String) :
    ((code = 105 ∨ code = 106 ∨ code = 107) → getStatusText code text = "In Progress") ∧
    (code = 108 → getStatusText code text = "Ready for download") ∧
    (¬ (code = 105 ∨ code = 106 ∨ code = 107) → code ≠ 108 → text ≠ "" →
      getStatusText code text = text) ∧
    (¬ (code = 105 ∨ code = 106 ∨ code = 107) → code ≠ 108 →
      getStatusText code "" = "Unknown") := by
  unfold getStatusText
  refine ⟨?_, ?_, ?_, ?_⟩ <;> intros <;> simp_all

/-- C6 witness: code 106 resolves to "In Progress". -/
theorem claim_C6_status_text_witness :
    getStatusText 106 "log_collection_in_progress" = "In Progress" :=
  (claim_C6_status_text 106 "log_collection_in_progress").1 (Or.inr (Or.inl rfl))

/-- C9: the loader in `users-page.tsx` maps only a bare-array body to user
rows (`Array.isArray(data) ? data.map(...) : []`); the wrapped shapes
`users` and `data`, documented as supported in the repository's own
`ADMIN_USERS_API.md`, both produce an empty list even though they carry the
same entries as the bare array. -/
theorem claim_C9_shape_divergence :
    loadUsersTransform (UsersBody.usersObj [sampleApiUser]) = [] ∧
    loadUsersTransform (UsersBody.dataObj [sampleApiUser]) = [] ∧
    loadUsersTransform (UsersBody.bareArray [sampleApiUser]) =
      [transformUser 0 sampleApiUser] ∧
    transformUser 0 sampleApiUser ≠ transformUser 1 { sampleApiUser with user_id := none } ∧
    documentedUsersList (UsersBody.usersObj [sampleApiUser]) =
      documentedUsersList (UsersBody.bareArray [sampleApiUser]) := by
  refine ⟨rfl, rfl, ?_, ?_, rfl⟩
  · simp [loadUsersTransform]
  · decide

/-- C2: while a fetch is in flight, `nextPage`, `previousPage` and
`refresh` leave the dashboard state (including `currentPage` and
`previousKeys`) unchanged and issue no fetch call. -/
theorem claim_C2_inflight_noop (s : DashboardState) (h : s.isFetching = true) :
    handleNextPage s = (s, none) ∧
    handlePreviousPage s = (s, none) ∧
    handleRefresh s = (s, none) := by
  unfold handleNextPage handlePreviousPage handleRefresh
  simp [h]

/-- C2 witness: the guard fires on a concrete in-flight state. -/
theorem claim_C2_inflight_noop_witness :
    handleNextPage busyDashboardState = (busyDashboardState, none) ∧
    handlePreviousPage busyDashboardState = (busyDashboardState, none) ∧
    handleRefresh busyDashboardState = (busyDashboardState, none) :=
  claim_C2_inflight_noop busyDashboardState rfl

/-- C10 counterexample: after `handleLogout` on a fully populated state,
`selectedVariant` and `selectedDeviceInfo` keep their previous values, so
not all in-memory selection state is reset. -/
theorem claim_C10_logout_counterexample :
    (handleLogout (LogoutOutcome.http 500 false) loggedInAppState).selectedVariant = "vmo2" ∧
    ("vmo2" : String) ≠ "" ∧
    (handleLogout (LogoutOutcome.http 500 false) loggedInAppState).selectedDeviceInfo =
      [sampleAppDevice] := by
  refine ⟨rfl, ?_, rfl⟩
  decide

/-- C10 (amended): for every outcome of the logout call — success, any
error status, or a network throw — `handleLogout` clears `authToken`,
`userName`, `userEmail`, `userRole` and `currentPage` from both storages,
resets the user fields and the lab/cabinet/manufacturer selection, and
mounts the auth screen; `selectedVariant` and `selectedDeviceInfo` are left
unchanged. -/
theorem claim_C10_logout_clears (outcome : LogoutOutcome) (s : AppState) :
    (handleLogout outcome s).localStore.authToken = none ∧
    (handleLogout outcome s).localStore.userName = none ∧
    (handleLogout outcome s).localStore.userEmail = none ∧
    (handleLogout outcome s).localStore.userRole = none ∧
    (handleLogout outcome s).localStore.currentPage = none ∧
    (handleLogout outcome s).sessionStore.authToken = none ∧
    (handleLogout outcome s).sessionStore.userName = none ∧
    (handleLogout outcome s).sessionStore.userEmail = none ∧
    (handleLogout outcome s).sessionStore.userRole = none ∧
    (handleLogout outcome s).sessionStore.currentPage = none ∧
    (handleLogout outcome s).userName = "" ∧
    (handleLogout outcome s).userEmail = "" ∧
    (handleLogout outcome s).userRole = "" ∧
    (handleLogout outcome s).currentPage = AppPage.auth ∧
    (handleLogout outcome s).selectedLab = 0 ∧
    (handleLogout outcome s).selectedLabId = "" ∧
    (handleLogout outcome s).selectedCabinetId = "" ∧
    (handleLogout outcome s).selectedManufacture = "" ∧
    (handleLogout outcome s).selectedVariant = s.selectedVariant ∧
    (handleLogout outcome s).selectedDeviceInfo = s.selectedDeviceInfo := by
  refine ⟨rfl, rfl, rfl, rfl, rfl, rfl, rfl, rfl, rfl, rfl,
    rfl, rfl, rfl, rfl, rfl, rfl, rfl, rfl, rfl, rfl⟩

/-- C8 counterexample: a failing inventory fetch leaves `allSets`
populated with the previously displayed sets, so the displayed set list
does not become empty. -/
theorem claim_C8_error_counterexample :
    (fetchLabDetails labsStateWithSets LLSFetchOutcome.errored).allSets = [sampleSetVM] ∧
    [sampleSetVM] ≠ ([] : List SetVM) := by
  refine ⟨rfl, ?_⟩
  decide

/-- C8 (amended): any failure of the per-lab inventory fetch clears the
cabinet data, the manufacturer facet list and the variant facet list, but
leaves `allSets` — the displayed set list — unchanged from its previous
value. -/
theorem claim_C8_error_clears (s : LabsState) :
    (fetchLabDetails s LLSFetchOutcome.errored).cabinetData = [] ∧
    (fetchLabDetails s LLSFetchOutcome.errored).chManufactures = [] ∧
    (fetchLabDetails s LLSFetchOutcome.errored).chVariants = [] ∧
    (fetchLabDetails s LLSFetchOutcome.errored).allSets = s.allSets := by
  refine ⟨rfl, rfl, rfl, rfl⟩

/-- C7 counterexample: a 401 response with a non-JSON body is classified as
a plain credentials error (`isConfigError = false`), not as a
`ConfigError`, because the 401 branch throws before the content-type check
is reached. -/
theorem claim_C7_config_counterexample :
    (authenticateUser "jane@example.com" (LoginResponse.http 401 false none none none)).isConfigError
      = false ∧
    (authenticateUser "jane@example.com" (LoginResponse.http 401 false none none none)).success
      = false := by
  refine ⟨rfl, rfl⟩

/-- C7 (amended): a 404 response, a 2xx response with a non-JSON
content-type, or a network-level throw is classified as a config error; in
each of these cases no session field is written to either storage and the
view stays on the login screen. -/
theorem claim_C7_config_error (email : String) (resp : LoginResponse)
    (h : resp = LoginResponse.networkThrow ∨
         (∃ isJson token role msg, resp = LoginResponse.http 404 isJson token role msg) ∨
         (∃ status token role msg, 200 ≤ status ∧ status ≤ 299 ∧
            resp = LoginResponse.http status false token role msg)) :
    (authenticateUser email resp).isConfigError = true ∧
    (authenticateUser email resp).success = false ∧
    (authenticateUser email resp).stored = none ∧
    pageAfterLogin (authenticateUser email resp) = "auth" := by
  rcases h with rfl | ⟨isJson, token, role, msg, rfl⟩ | ⟨status, token, role, msg, h1, h2, rfl⟩
  · exact ⟨rfl, rfl, rfl, rfl⟩
  · simp [authenticateUser, authFailure, pageAfterLogin]
  · have h401 : ¬ status = 401 := by omega
    have h422 : ¬ status = 422 := by omega
    have h404 : ¬ status = 404 := by omega
    have h500 : ¬ 500 ≤ status := by omega
    simp only [authenticateUser]
    rw [if_neg h401, if_neg h422, if_neg h404, if_neg h500,
      if_neg (not_not_intro ⟨h1, h2⟩), if_pos (by decide)]
    exact ⟨rfl, rfl, rfl, rfl⟩

/-- C7 witness: a network-level throw yields a config error, writes no
session fields, and leaves the auth page mounted. -/
theorem claim_C7_config_error_witness :
    (authenticateUser "jane@example.com" LoginResponse.networkThrow).isConfigError = true ∧
    (authenticateUser "jane@example.com" LoginResponse.networkThrow).success = false ∧
    (authenticateUser "jane@example.com" LoginResponse.networkThrow).stored = none ∧
    pageAfterLogin (authenticateUser "jane@example.com" LoginResponse.networkThrow) = "auth" :=
  claim_C7_config_error "jane@example.com" LoginResponse.networkThrow (Or.inl rfl)

/-- The guard structure of `validateDates`: it returns `true` exactly when
all four fields are present, neither timestamp is in the future, and the
start is strictly before the end. -/
theorem validateDates_true_iff (parse : String → String → Int) (now : Int) (f : LogForm) :
    validateDates parse now f = true ↔
      (¬ (f.startDate = "" ∨ f.startTime = "" ∨ f.endDate = "" ∨ f.endTime = "") ∧
       ¬ now < parse f.startDate f.startTime ∧
       ¬ now < parse f.endDate f.endTime ∧
       parse f.startDate f.startTime < parse f.endDate f.endTime) := by
  simp only [validateDates]
  split
  · rename_i h1
    simp [h1]
  · rename_i h1
    split
    · rename_i h2
      simp [h1, h2]
    · rename_i h2
      split
      · rename_i h3
        simp [h1, h2, h3]
      · rename_i h3
        split
        · rename_i h4
          simp [h1, h2, h3, h4]
        · rename_i h4
          simp [h1, h2, h3, h4]
          omega

/-- C4: any of the listed validation failures — short trimmed description,
a missing date or time field, a start or end after the wall clock at
submit, a start not strictly before the end, no log type selected, or HAN
selected with no format chosen (the select offers only ".pcap", ".dcf" and
".cubx") — makes `handleRetrieveLogs` return before the POST is built, so
no network call is made. -/
theorem claim_C4_validation_rejects (parse : String → String → Int) (now : Int)
    (token : Option String) (transactionId labId cabinetId : String) (f : LogForm)
    (h : f.taskDescription.trim.length < 5
       ∨ f.startDate = "" ∨ f.startTime = "" ∨ f.endDate = "" ∨ f.endTime = ""
       ∨ now < parse f.startDate f.startTime
       ∨ now < parse f.endDate f.endTime
       ∨ parse f.endDate f.endTime ≤ parse f.startDate f.startTime
       ∨ (f.logTypesCH = false ∧ f.logTypesHAN = false)
       ∨ (f.logTypesHAN = true ∧ f.hanLogFormat = none)) :
    handleRetrieveLogs parse now token transactionId labId cabinetId f = none := by
  by_cases h1 : f.taskDescription.trim = ""
  · simp [handleRetrieveLogs, h1]
  by_cases h2 : f.taskDescription.trim.length < 5
  · simp [handleRetrieveLogs, h1, h2]
  by_cases h3 : validateDates parse now f = true
  case neg => simp [handleRetrieveLogs, h1, h2, h3]
  by_cases h4 : f.logTypesCH = false ∧ f.logTypesHAN = false
  · simp [handleRetrieveLogs, h1, h2, h3, h4]
  by_cases h5 : f.logTypesHAN = true ∧ f.hanLogFormat = none
  · simp [handleRetrieveLogs, h1, h2, h3, h4, h5]
  exfalso
  rw [validateDates_true_iff] at h3
  obtain ⟨hf, hs, he, hlt⟩ := h3
  push_neg at hf
  obtain ⟨hf1, hf2, hf3, hf4⟩ := hf
  rcases h with h | h | h | h | h | h | h | h | h | h
  · exact h2 h
  · exact hf1 h
  · exact hf2 h
  · exact hf3 h
  · exact hf4 h
  · exact hs h
  · exact he h
  · omega
  · exact h4 h
  · exact h5 h

/-- C4 witness: a form with a missing start date is rejected and no
payload is produced. -/
theorem claim_C4_validation_rejects_witness :
    handleRetrieveLogs (fun _ _ => (0 : Int)) 0 (some "jwt-token") "tx-1" "andromeda" "b11"
      { taskDescription := "weekly regression"
        startDate := ""
        startTime := "09:00"
        endDate := "2024-01-02"
        endTime := "10:00"
        logTypesCH := true
        logTypesHAN := false
        chLogFormat := none
        hanLogFormat := none } = none :=
  claim_C4_validation_rejects (fun _ _ => (0 : Int)) 0 (some "jwt-token") "tx-1" "andromeda"
    "b11" _ (Or.inr (Or.inl rfl))

/-- C1: if request A is issued and request B is issued afterwards while A
is still pending, then A's captured id differs from the latest issued id,
so when A's response arrives `fetchComplete` discards it (only the
in-flight flag is reset); and a response for B arriving while B's id is
still the latest is applied through `processApiResponse`. -/
theorem claim_C1_request_staleness (s0 s1 s2 : DashboardState) (idA idB : Nat)
    (dataA dataB : LogCollectionsResponse) (pA pB : Nat)
    (h1 : issueRequest s0 = (s1, idA)) (h2 : issueRequest s1 = (s2, idB)) :
    fetchComplete s2 idA (FetchOutcome.success dataA) pA = { s2 with isFetching := false } ∧
    (∀ s3 : DashboardState, s3.currentRequestId = idB →
      fetchComplete s3 idB (FetchOutcome.success dataB) pB =
        { processApiResponse s3 dataB (some pB) with isFetching := false }) := by
  have e1 : s1 = { s0 with currentRequestId := s0.currentRequestId + 1 } :=
    (congrArg Prod.fst h1).symm
  have eA : idA = s0.currentRequestId + 1 := (congrArg Prod.snd h1).symm
  have e2 : s2 = { s1 with currentRequestId := s1.currentRequestId + 1 } :=
    (congrArg Prod.fst h2).symm
  constructor
  · have hne : ¬ idA = s2.currentRequestId := by
      rw [eA, e2, e1]
      simp
    simp only [fetchComplete]
    rw [if_neg hne]
  · intro s3 h3
    simp only [fetchComplete]
    rw [if_pos h3.symm]

/-- C1 witness: with ids 1 and 2 issued in order, the stale response
carrying id 1 is discarded. -/
theorem claim_C1_request_staleness_witness :
    fetchComplete dashS2 1 (FetchOutcome.success emptyResponse) 5 =
      { dashS2 with isFetching := false } :=
  (claim_C1_request_staleness dashS0 dashS1 dashS2 1 2 emptyResponse emptyResponse 5 5
    rfl rfl).1

/-- `issueRequest` only changes the request id. -/
theorem issueRequest_frame (s : DashboardState) :
    (issueRequest s).1.previousKeys = s.previousKeys ∧
    (issueRequest s).1.currentPage = s.currentPage :=
  ⟨rfl, rfl⟩

/-- Completing a fetch never changes `previousKeys` or `currentPage`. -/
theorem fetchComplete_frame (s : DashboardState) (rid : Nat) (outcome : FetchOutcome)
    (p : Nat) :
    (fetchComplete s rid outcome p).previousKeys = s.previousKeys ∧
    (fetchComplete s rid outcome p).currentPage = s.currentPage := by
  cases outcome with
  | success data =>
    simp only [fetchComplete]
    split
    · exact ⟨rfl, rfl⟩
    · exact ⟨rfl, rfl⟩
  | errored => exact ⟨rfl, rfl⟩

/-- An accepted `nextPage` transition pushes one key and advances the
page by one. -/
theorem handleNextPage_accepted (s s' : DashboardState) (c : FetchCall)
    (h : handleNextPage s = (s', some c)) :
    s'.previousKeys.length = s.previousKeys.length + 1 ∧
    s'.currentPage = s.currentPage + 1 := by
  simp only [handleNextPage] at h
  split at h
  · simp at h
  · split at h
    · simp at h
    · split at h
      · simp at h
      · rw [Prod.mk.injEq] at h
        obtain ⟨hs, _⟩ := h
        subst hs
        simp

/-- An accepted `previousPage` transition pops one key, steps the page
back by one, and can only fire above page 1. -/
theorem handlePreviousPage_accepted (s s' : DashboardState) (c : FetchCall)
    (h : handlePreviousPage s = (s', some c)) :
    s'.previousKeys = s.previousKeys.dropLast ∧
    s'.currentPage = s.currentPage - 1 ∧
    s.currentPage ≠ 1 := by
  simp only [handlePreviousPage] at h
  split at h
  · simp at h
  · rename_i hfetch
    split at h
    · simp at h
    · rename_i hpage1
      split at h
      · simp at h
      · split at h
        · rename_i hprev1
          rw [Prod.mk.injEq] at h
          obtain ⟨hs, _⟩ := h
          subst hs
          refine ⟨rfl, ?_, hpage1⟩
          simp
          omega
        · split at h
          · split at h
            · simp at h
            · rw [Prod.mk.injEq] at h
              obtain ⟨hs, _⟩ := h
              subst hs
              exact ⟨rfl, rfl, hpage1⟩
          · simp at h

/-- One accepted transition preserves the pagination invariant. -/
theorem navApply_invariant (s s' : DashboardState) (st : NavStep)
    (hI : pageInvariant s) (h : navApply s st = some s') : pageInvariant s' := by
  obtain ⟨hlen, hpage⟩ := hI
  cases st with
  | next outcome =>
    simp only [navApply, navStep] at h
    rcases hh : handleNextPage s with ⟨t, oc⟩
    rw [hh] at h
    cases oc with
    | none => simp at h
    | some call =>
      simp only [Option.some.injEq] at h
      subst h
      obtain ⟨h1, h2⟩ := handleNextPage_accepted s t call hh
      obtain ⟨f1, f2⟩ :=
        fetchComplete_frame (issueRequest t).1 (issueRequest t).2 outcome call.pageNumber
      obtain ⟨i1, i2⟩ := issueRequest_frame t
      unfold pageInvariant
      rw [f1, f2, i1, i2]
      omega
  | prev outcome =>
    simp only [navApply, navStep] at h
    rcases hh : handlePreviousPage s with ⟨t, oc⟩
    rw [hh] at h
    cases oc with
    | none => simp at h
    | some call =>
      simp only [Option.some.injEq] at h
      subst h
      obtain ⟨h1, h2, h3⟩ := handlePreviousPage_accepted s t call hh
      have hdrop : t.previousKeys.length = s.previousKeys.length - 1 := by
        rw [h1, List.length_dropLast]
      obtain ⟨f1, f2⟩ :=
        fetchComplete_frame (issueRequest t).1 (issueRequest t).2 outcome call.pageNumber
      obtain ⟨i1, i2⟩ := issueRequest_frame t
      unfold pageInvariant
      rw [f1, f2, i1, i2]
      omega

/-- C3: starting from the initial dashboard state (page 1, empty key
history), after any sequence of accepted `nextPage`/`previousPage`
transitions, `previousKeys.length = currentPage - 1` holds (and therefore
holds before and after every transition of the sequence, each intermediate
state being reachable by a prefix). -/
theorem claim_C3_pagination_invariant (rows : List TableRow) (k : Option NextPageKey)
    (rid : Nat) (steps : List NavStep) (s' : DashboardState)
    (h : navRun (initialDashboardState rows k rid) steps = some s') :
    s'.previousKeys.length = s'.currentPage - 1 := by
  have main : ∀ (steps : List NavStep) (s : DashboardState), pageInvariant s →
      ∀ s'', navRun s steps = some s'' → pageInvariant s'' := by
    intro steps
    induction steps with
    | nil =>
      intro s hI s'' hrun
      simp only [navRun, List.foldlM_nil] at hrun
      cases hrun
      exact hI
    | cons st rest ih =>
      intro s hI s'' hrun
      simp only [navRun, List.foldlM_cons] at hrun
      cases hna : navApply s st with
      | none => rw [hna] at hrun; simp at hrun
      | some t =>
        rw [hna] at hrun
        exact ih t (navApply_invariant s t st hI hna) s'' hrun
  have hI0 : pageInvariant (initialDashboardState rows k rid) := ⟨rfl, Nat.le_refl 1⟩
  exact (main steps (initialDashboardState rows k rid) hI0 s' h).1

/-- C3 witness: the empty sequence is accepted and the invariant holds in
the initial state. -/
theorem claim_C3_pagination_invariant_witness :
    (initialDashboardState [] none 0).previousKeys.length =
      (initialDashboardState [] none 0).currentPage - 1 :=
  claim_C3_pagination_invariant [] none 0 [] (initialDashboardState [] none 0) rfl

end SmartMeter
